import Mathlib

/-!
Shallow embedding of the H2 ODBC driver core (wire codec, connection and
statement state machines, descriptor/binding engine) from
`src/h2/src/odbc/driver` and `src/trunk/h2/src/odbc/driver`, together with
theorems settling the frozen claims about it.

Conventions:
* C `int` (32-bit, two's complement) is modelled as `Int`; where overflow or
  byte extraction matters we reduce modulo `2^32` explicitly.
* Bytes on the wire are `Nat` values; the codec masks with `% 256` exactly
  where the C code masks with `& 0xff` or truncates `int` to `char`.
* The blocking stream is a `Socket` record: `isOpen` models `m_socket != 0`,
  `input` is the byte sequence the stream will still deliver before it
  reports closed/error, `output` is the trace of bytes written so far.
  `junk` stands for the (unspecified) content of uninitialized stack
  buffers: `Socket::read` leaves the unread suffix of its caller's buffer
  untouched, so a decode that hits end-of-stream observes those bytes.
* Caller-owned memory written by the binding engine is modelled by explicit
  effect records (lists of byte stores plus optional typed stores), and
  memory read by the engine is modelled by fields carrying its content.
-/

namespace H2Odbc

/-- Two's-complement reading of a 32-bit pattern (`0 ≤ n < 2^32`). -/
def toSigned32 (n : Nat) : Int :=
  if n < 2 ^ 31 then (n : Int) else (n : Int) - 2 ^ 32

/-- Two's-complement reading of an 8-bit pattern, as in C's signed `char`
(`return buffer[0];` in `Socket::readByte`). -/
def toSigned8 (n : Nat) : Int :=
  if n % 256 < 128 then ((n % 256 : Nat) : Int) else ((n % 256 : Nat) : Int) - 256

/-- The 32-bit pattern of a C `int`, reduced modulo `2^32`. -/
def toUnsigned32 (x : Int) : Nat := (x % 2 ^ 32).toNat

/-- The four big-endian bytes `Socket::writeInt` produces:
`buffer[0] = (x >> 24) & 0xff` down to `buffer[3] = x & 0xff`. -/
def int32Bytes (x : Int) : List Nat :=
  let n := toUnsigned32 x
  [n / 2 ^ 24 % 256, n / 2 ^ 16 % 256, n / 2 ^ 8 % 256, n % 256]

/-- The reassembly in `Socket::readInt`:
`((b0 & 0xff) << 24) | ((b1 & 0xff) << 16) | ((b2 & 0xff) << 8) | (b3 & 0xff)`,
an `int`, hence read back through two's complement.  The shifted masked
bytes occupy disjoint bit ranges, so the bitwise-or is a sum. -/
def assemble4 (b0 b1 b2 b3 : Nat) : Int :=
  toSigned32 ((b0 % 256) * 2 ^ 24 + (b1 % 256) * 2 ^ 16 + (b2 % 256) * 2 ^ 8 + b3 % 256)

/-- The transport stream of `sockets.cpp`. -/
structure Socket where
  /-- `m_socket != 0`; `setError` zeroes `m_socket`. -/
  isOpen : Bool
  /-- Bytes the peer will still deliver before the stream reports closed. -/
  input : List Nat
  /-- Trace of all bytes written so far. -/
  output : List Nat
  /-- Content of uninitialized buffer bytes left unwritten by a short read. -/
  junk : Nat
  deriving Repr, DecidableEq

namespace Socket

/-- `Socket::setError`: `m_socket = 0`. -/
def setError (s : Socket) : Socket := { s with isOpen := false }

/-- `Socket::read(buffer, len)`: returns immediately if the socket is dead;
otherwise loops over `recv` until `len` bytes arrived, or marks the socket
dead via `setError` once the stream reports closed/error (after delivering
whatever bytes remained).  The returned list is what was stored into the
caller's buffer prefix. -/
def read (s : Socket) (len : Nat) : List Nat × Socket :=
  if s.isOpen = false then ([], s)
  else if len ≤ s.input.length then
    (s.input.take len, { s with input := s.input.drop len })
  else
    (s.input, { s with isOpen := false, input := [] })

/-- `Socket::readByte`: `-1` when the socket is dead, otherwise the first
buffer byte as a signed `char`. -/
def readByte (s : Socket) : Int × Socket :=
  if s.isOpen = false then (-1, s)
  else
    let p := s.read 1
    (toSigned8 (p.1.headD s.junk), p.2)

/-- `Socket::readInt`: `-1` when the socket is dead, otherwise the
reassembly of the 4-byte buffer; bytes the failed `read` did not overwrite
keep their junk content. -/
def readInt (s : Socket) : Int × Socket :=
  if s.isOpen = false then (-1, s)
  else
    let p := s.read 4
    let buf := p.1 ++ List.replicate (4 - p.1.length) s.junk
    (assemble4 (buf.getD 0 0) (buf.getD 1 0) (buf.getD 2 0) (buf.getD 3 0), p.2)

/-- `Socket::readString`: empty when the socket is dead; otherwise reads an
`int` length (negative lengths clamp to `0`), then that many bytes, stores a
terminator at `buffer[len]` and converts the `char*` to a `std::string`,
which stops at the first `NUL`. -/
def readString (s : Socket) : List Nat × Socket :=
  if s.isOpen = false then ([], s)
  else
    let p := s.readInt
    let n := if p.1 < 0 then 0 else p.1.toNat
    if n = 0 then ([], p.2)
    else
      let q := p.2.read n
      let buf := q.1 ++ List.replicate (n - q.1.length) s.junk
      ((buf.take n).takeWhile (fun b => b ≠ 0), q.2)

/-- `Socket::write`: no-op on a dead socket, otherwise appends to the
stream (successful `send`; send-side failures are not exercised by the
claims). -/
def write (s : Socket) (bs : List Nat) : Socket :=
  if s.isOpen = false then s else { s with output := s.output ++ bs }

/-- `Socket::writeByte`: the `int` is truncated to a `char`. -/
def writeByte (s : Socket) (b : Int) : Socket :=
  s.write [(b % 256).toNat]

/-- `Socket::writeInt`: four big-endian bytes. -/
def writeInt (s : Socket) (x : Int) : Socket :=
  s.write (int32Bytes x)

/-- `Socket::writeBool`: a 4-byte int, 1 = true, 0 = false. -/
def writeBool (s : Socket) (b : Bool) : Socket :=
  s.writeInt (if b then 1 else 0)

/-- `Socket::writeString`: `strlen` finds the NUL-free prefix; its length is
written as an `int`, followed by exactly those bytes (no terminator). -/
def writeString (s : Socket) (str : List Nat) : Socket :=
  let t := str.takeWhile (fun b => b ≠ 0)
  (s.writeInt (t.length : Int)).write t

/-- `Socket::isClosed` from `h2odbc.h`, verbatim: `return m_socket != 0;`
(note: this is the *open* test, the name notwithstanding). -/
def isClosed (s : Socket) : Bool := s.isOpen

end Socket

end H2Odbc

namespace H2Odbc

/-- Diagnostic strings from `h2odbc.h` used by the modelled paths. -/
def E_08001 : String := "08001 Client unable to establish connection"

/-- `h2odbc.h`: server rejected the connection. -/
def E_08004 : String := "08004 Server rejected the connection"

/-- `h2odbc.h`: syntax error or access violation. -/
def E_42000 : String := "42000 Syntax error or access violation"

/-- `h2odbc.h`: invalid descriptor index. -/
def E_07009 : String := "07009 Invalid descriptor index"

/-- `enum ConnectionState {C_INIT,C_OPEN,C_CLOSED}`. -/
inductive ConnState where
  | C_INIT
  | C_OPEN
  | C_CLOSED
  deriving Repr, DecidableEq

/-- The connection of `odbc.cpp` (fields exercised by the claims; the
magic tag, environment back-pointer, statement list, read-only flag and
name strings play no role in them). -/
structure Connection where
  m_state : ConnState
  m_autoCommit : Bool
  m_socket : Socket
  m_error : Option String
  deriving Repr, DecidableEq

namespace Connection

/-- `Connection::setError`. -/
def setError (c : Connection) (e : Option String) : Connection :=
  { c with m_error := e }

/-- `Connection::open`, from the point where the target has been parsed and
the `Socket` constructed (the URL parsing of odbc.cpp lines 102-130 is
elided: the claim assumes a well-formed target).  Transcribed faithfully:
`isClosed()` is `return m_socket != 0;` — the *open* test — and each
`m_state == …;` in the source is a comparison expression, not an
assignment, so no branch changes `m_state`. -/
def open_ (c : Connection) (sock : Socket) (dbname user password : List Nat) : Connection :=
  if sock.isClosed then
    -- if(m_socket->isClosed()) { setError(E_08001); m_state == C_CLOSED; return; }
    { c with m_socket := sock, m_error := some E_08001 }
  else
    -- writeByte('C'); writeString(dbname)->writeString(user)->writeString(password)
    let s1 := (((sock.writeByte 67).writeString dbname).writeString user).writeString password
    let p := s1.readByte
    if p.1 = 79 then
      -- 'O': trace("ok!"); m_state == C_OPEN;   (comparison, no state change)
      { c with m_socket := p.2 }
    else
      -- setError(E_08004); m_state == C_CLOSED; (comparison, no state change)
      { c with m_socket := p.2, m_error := some E_08004 }

/-- `Connection::setAutoCommit`: sends the toggle only when the flag
changes. -/
def setAutoCommit (c : Connection) (autocommit : Bool) : Connection :=
  if autocommit ≠ c.m_autoCommit then
    { c with
        m_socket := (c.m_socket.writeByte 65).writeByte (if autocommit then 49 else 48),
        m_autoCommit := autocommit }
  else c

end Connection

end H2Odbc

namespace H2Odbc

/-- ODBC type and sentinel codes used by the driver (values from sqlext.h). -/
def SQL_C_CHAR : Int := 1

/-- `SQL_C_LONG` (= `SQL_INTEGER`). -/
def SQL_C_LONG : Int := 4

/-- `SQL_C_SHORT` (= `SQL_SMALLINT`). -/
def SQL_C_SHORT : Int := 5

/-- `SQL_C_SLONG` (= `SQL_C_LONG + SQL_SIGNED_OFFSET`). -/
def SQL_C_SLONG : Int := -16

/-- `SQL_C_ULONG` (= `SQL_C_LONG + SQL_UNSIGNED_OFFSET`). -/
def SQL_C_ULONG : Int := -18

/-- `SQL_C_SSHORT` (= `SQL_C_SHORT + SQL_SIGNED_OFFSET`). -/
def SQL_C_SSHORT : Int := -15

/-- `SQL_INTEGER`. -/
def SQL_INTEGER : Int := 4

/-- `SQL_SMALLINT`. -/
def SQL_SMALLINT : Int := 5

/-- `SQL_VARCHAR`. -/
def SQL_VARCHAR : Int := 12

/-- `SQL_NULL_DATA`. -/
def SQL_NULL_DATA : Int := -1

/-- `SQL_NTS`. -/
def SQL_NTS : Int := -3

/-- `SQL_DATA_AT_EXEC`. -/
def SQL_DATA_AT_EXEC : Int := -2

/-- `SQL_DEFAULT_PARAM`. -/
def SQL_DEFAULT_PARAM : Int := -5

/-- Decimal digit expansion (ASCII) of a natural number, as `itoa`
produces for non-negative inputs. -/
def natDigits (n : Nat) : List Nat :=
  if h : n < 10 then [48 + n]
  else natDigits (n / 10) ++ [48 + n % 10]
termination_by n
decreasing_by omega

/-- C `itoa(value, buffer, 10)`: decimal rendering with a leading `'-'`
for negative values. -/
def itoa (x : Int) : List Nat :=
  if x < 0 then 45 :: natDigits x.natAbs else natDigits x.toNat

/-- C `atoi`: optional leading whitespace, optional sign, then the longest
digit prefix (0 when there is none). -/
def atoi (s : List Nat) : Int :=
  let isDigit : Nat → Bool := fun b => 48 ≤ b && b ≤ 57
  let digitsVal : List Nat → Int := fun l =>
    ((l.takeWhile isDigit).foldl (fun a b => a * 10 + (b - 48)) 0 : Nat)
  match s.dropWhile (fun b => b = 32 || (9 ≤ b && b ≤ 13)) with
  | 45 :: t => -(digitsVal t)
  | 43 :: t => digitsVal t
  | t => digitsVal t

/-- 16-bit truncation (C conversion of `int` to `SQLUSMALLINT`). -/
def toUnsigned16 (x : Int) : Nat := (x % 2 ^ 16).toNat

/-- Two's-complement reading of a 16-bit pattern (storing a
`SQLUSMALLINT` through a `SQLSMALLINT*`). -/
def toSigned16 (n : Nat) : Int :=
  if n % 2 ^ 16 < 2 ^ 15 then ((n % 2 ^ 16 : Nat) : Int) else ((n % 2 ^ 16 : Nat) : Int) - 2 ^ 16

/-- One column/parameter record (`DescriptorRecord` of h2odbc.h).  The
defaults are the constructor's zero-initialisation.  Caller-owned memory
reachable through the record's pointers is carried alongside: `*m_pointer`
read as a character array (`memChars`) or as a 16/32-bit integer
(`memInt`), and `*m_statusPointer` as `m_statusValue`; the two `…Bound`
flags model the pointers being non-null. -/
structure DescRecord where
  m_sqlDataType : Int := 0
  m_cDataType : Int := 0
  m_name : List Nat := []
  m_tableName : List Nat := []
  m_precision : Int := 0
  m_scale : Int := 0
  m_displaySize : Int := 0
  m_targetBufferLength : Int := 0
  m_dataInt : Int := 0
  m_dataString : List Nat := []
  m_wasNull : Bool := false
  m_pointerBound : Bool := false
  m_statusBound : Bool := false
  m_statusValue : Int := 0
  memChars : List Nat := []
  memInt : Int := 0
  deriving Repr, DecidableEq

namespace DescRecord

/-- `DescriptorRecord::getString`: `none` models the `NULL` `char*`
returned for SQL type 0; integers are rendered with `itoa`. -/
def getString (rec : DescRecord) : Option (List Nat) :=
  if rec.m_sqlDataType = SQL_VARCHAR then some rec.m_dataString
  else if rec.m_sqlDataType = SQL_SMALLINT ∨ rec.m_sqlDataType = SQL_INTEGER then
    some (itoa rec.m_dataInt)
  else if rec.m_sqlDataType = 0 then none
  else some []

/-- `DescriptorRecord::getInt`: strings go through `atoi`. -/
def getInt (rec : DescRecord) : Int :=
  if rec.m_sqlDataType = SQL_VARCHAR then atoi rec.m_dataString
  else if rec.m_sqlDataType = SQL_SMALLINT ∨ rec.m_sqlDataType = SQL_INTEGER then
    rec.m_dataInt
  else if rec.m_sqlDataType = 0 then 0
  else 0

/-- `DescriptorRecord::readMeta`: type code, table name, column name,
precision, scale, display size. -/
def readMeta (rec : DescRecord) (s : Socket) : DescRecord × Socket :=
  let t := s.readInt
  let tn := t.2.readString
  let nm := tn.2.readString
  let pr := nm.2.readInt
  let sc := pr.2.readInt
  let ds := sc.2.readInt
  ({ rec with
      m_sqlDataType := t.1, m_tableName := tn.1, m_name := nm.1,
      m_precision := pr.1, m_scale := sc.1, m_displaySize := ds.1 }, ds.2)

/-- `DescriptorRecord::readData`: per-type row-value decoding (null flag
as a wire bool, then the value). -/
def readData (rec : DescRecord) (s : Socket) : DescRecord × Socket :=
  if rec.m_sqlDataType = 0 then
    ({ rec with m_wasNull := true, m_dataInt := 0 }, s)
  else if rec.m_sqlDataType = SQL_SMALLINT ∨ rec.m_sqlDataType = SQL_INTEGER then
    let b := s.readInt
    if b.1 = 1 then ({ rec with m_wasNull := true, m_dataInt := 0 }, b.2)
    else
      let v := b.2.readInt
      ({ rec with m_wasNull := false, m_dataInt := v.1 }, v.2)
  else if rec.m_sqlDataType = SQL_VARCHAR then
    let v := s.readString
    ({ rec with m_wasNull := false, m_dataString := v.1 }, v.2)
  else ({ rec with m_wasNull := false }, s)

end DescRecord

/-- The stores `copyData`/`returnString`/`returnInt`/`returnSmall` perform
into caller-owned memory: byte stores into the bound buffer (offset,
value), an optional 32-bit store, an optional 16-bit store, and an
optional store into the bound length/null indicator. -/
structure FetchEffects where
  bufBytes : List (Nat × Nat) := []
  intStore : Option Int := none
  smallStore : Option Int := none
  indicator : Option Int := none
  deriving Repr, DecidableEq

/-- `returnString(SQLPOINTER dest, SQLINTEGER dest_len, SQLINTEGER* dest_pt,
const char* source)` from sqlUtils.cpp (the `SQLSMALLINT` overload is the
same logic): a NULL source is treated as `""`; `len` is `strlen` clamped
to `dest_len`; the indicator (when bound) receives the clamped `len`; the
buffer (when bound) receives `len` payload bytes and a NUL at offset
`len`. -/
def returnString (destBound : Bool) (dest_len : Int) (ptBound : Bool)
    (source : Option (List Nat)) : FetchEffects :=
  if dest_len = 0 then {}
  else
    let s := (source.getD []).takeWhile (fun b => b ≠ 0)
    let len : Int := if dest_len < (s.length : Int) then dest_len else (s.length : Int)
    { bufBytes :=
        if destBound then
          (List.range len.toNat).map (fun i => (i, s.getD i 0)) ++ [(len.toNat, 0)]
        else [],
      indicator := if ptBound then some len else none }

namespace DescRecord

/-- `DescriptorRecord::setNull`: writes `SQL_NULL_DATA` to the indicator
when one is bound, and nothing else. -/
def setNull (ar : DescRecord) : FetchEffects :=
  { indicator := if ar.m_statusBound then some SQL_NULL_DATA else none }

/-- `DescriptorRecord::copyData(ar)`: null rows go through `setNull`;
otherwise the application record's declared C type selects the conversion.
`returnInt` stores the value through `SQLUINTEGER*` unconditionally and
sets the indicator (when bound) to `sizeof(SQLUINTEGER) = 4`; `returnSmall`
narrows through `SQLUSMALLINT` and sets the indicator to 2.  An
unrecognized target type stores nothing. -/
def copyData (rec ar : DescRecord) : FetchEffects :=
  if rec.m_wasNull then ar.setNull
  else if ar.m_cDataType = SQL_C_CHAR then
    returnString ar.m_pointerBound ar.m_targetBufferLength ar.m_statusBound rec.getString
  else if ar.m_cDataType = SQL_C_SLONG ∨ ar.m_cDataType = SQL_C_ULONG then
    { intStore := some rec.getInt,
      indicator := if ar.m_statusBound then some 4 else none }
  else if ar.m_cDataType = SQL_C_SSHORT then
    { smallStore := some (toSigned16 (toUnsigned16 rec.getInt)),
      indicator := if ar.m_statusBound then some 2 else none }
  else {}

/-- `DescriptorRecord::sendParameterValue`: resolves the effective length
from the indicator, short-circuits on the null sentinel (a 4-byte zero
marker) and on a NULL data pointer, then encodes per declared C type; any
other type only logs a trace — nothing is written and no error is set. -/
def sendParameterValue (rec : DescRecord) (s : Socket) : Socket :=
  let length : Int :=
    if rec.m_statusBound then
      if rec.m_statusValue = SQL_NTS then rec.m_targetBufferLength
      else if rec.m_statusValue = SQL_DEFAULT_PARAM then rec.m_targetBufferLength
      else if rec.m_statusValue = SQL_DATA_AT_EXEC then rec.m_targetBufferLength
      else if rec.m_statusValue = SQL_NULL_DATA then rec.m_targetBufferLength
      else rec.m_statusValue
    else rec.m_targetBufferLength
  if rec.m_statusBound = true ∧ rec.m_statusValue = SQL_NULL_DATA then
    s.writeInt 0
  else if rec.m_pointerBound = false then
    s.writeInt 0
  else if rec.m_cDataType = SQL_C_SHORT then
    (s.writeInt SQL_INTEGER).writeInt rec.memInt
  else if rec.m_cDataType = SQL_C_LONG then
    (s.writeInt SQL_INTEGER).writeInt rec.memInt
  else if rec.m_cDataType = SQL_C_CHAR then
    if length < 0 then s.writeInt 0
    else (s.writeInt SQL_VARCHAR).writeString (rec.memChars.take length.toNat)
  else s

end DescRecord

/-- `enum StatementState {S_PREPARED,S_EXECUTED,S_POSITIONED,S_CLOSED}`. -/
inductive StmtState where
  | S_PREPARED
  | S_EXECUTED
  | S_POSITIONED
  | S_CLOSED
  deriving Repr, DecidableEq

/-- The statement of odbcStatement.cpp.  The four descriptors are modelled
by their record lists (the header's `Descriptor` is a record vector plus
binding metadata not touched by the claims). -/
structure Statement where
  m_state : StmtState
  m_sql : List Nat
  m_columnCount : Int
  m_updateCount : Int
  m_resultSetId : Int
  m_preparedId : Int
  m_rowId : Int
  m_hasResultSet : Bool
  m_parameterCount : Int
  m_impRow : List DescRecord
  m_appRow : List DescRecord
  m_impParam : List DescRecord
  m_appParam : List DescRecord
  m_error : Option String
  deriving Repr, DecidableEq

namespace Statement

/-- `Statement::Statement`: all counters zeroed, result-set id `-1`, empty
descriptors.  The constructor never initialises `m_state`; the
indeterminate initial value is taken as a parameter. -/
def fresh (initState : StmtState) : Statement :=
  ⟨initState, [], 0, 0, -1, 0, 0, false, 0, [], [], [], [], none⟩

/-- `Statement::setError`. -/
def setError (st : Statement) (e : Option String) : Statement :=
  { st with m_error := e }

/-- `Statement::addParameter`: grows the implementation and application
parameter descriptors in lockstep. -/
def addParameter (st : Statement) : Statement :=
  { st with
      m_impParam := st.m_impParam ++ [{}],
      m_appParam := st.m_appParam ++ [{}] }

end Statement

/-- The metadata loop of `Statement::processResultSet`: per column, one
fresh record filled by `readMeta` is pushed onto the implementation row
descriptor and one untouched fresh record onto the application row
descriptor. -/
def readColumns : Nat → Socket → List DescRecord × List DescRecord × Socket
  | 0, s => ([], [], s)
  | n + 1, s =>
    let p := DescRecord.readMeta {} s
    let q := readColumns n p.2
    (p.1 :: q.1, ({} : DescRecord) :: q.2.1, q.2.2)

namespace Statement

/-- `Statement::processResultSet`: resets the cursor, reads result-set id
and column count, replaces both row descriptors wholesale with one record
per column. -/
def processResultSet (st : Statement) (s : Socket) : Statement × Socket :=
  let rid := s.readInt
  let cc := rid.2.readInt
  let r := readColumns cc.1.toNat cc.2
  ({ st with
      m_rowId := 0, m_updateCount := 0, m_state := StmtState.S_EXECUTED,
      m_hasResultSet := true, m_resultSetId := rid.1, m_columnCount := cc.1,
      m_impRow := r.1, m_appRow := r.2.1 }, r.2.2)

/-- `Statement::prepare`: sends `'P'` + sql; response `'E'` closes the
statement with the 42000 diagnostic, `'O'` reads prepared id and parameter
count and discards (clears) both parameter descriptors. -/
def prepare (st : Statement) (sql : List Nat) (s : Socket) :
    Bool × Statement × Socket :=
  let s1 := (s.writeByte 80).writeString sql
  let st1 := { st with m_state := StmtState.S_PREPARED, m_sql := sql }
  let p := s1.readByte
  if p.1 = 69 then
    (false, { st1 with
        m_parameterCount := 0, m_state := StmtState.S_CLOSED,
        m_error := some E_42000 }, p.2)
  else if p.1 = 79 then
    let q := p.2.readInt
    let r := q.2.readInt
    (true, { st1 with
        m_preparedId := q.1, m_parameterCount := r.1,
        m_impParam := [], m_appParam := [] }, r.2)
  else (true, st1, p.2)

/-- The parameter loop of `Statement::executePrepared`: for each ordinal
below the declared parameter count, `'1'` + ordinal + the record's encoded
value.  `getRecord(i)` is an unchecked `vector` access in the source; an
out-of-range ordinal (records were never bound) is modelled as a fresh
default record. -/
def paramLoop (recs : List DescRecord) (count : Nat) (s : Socket) : Socket :=
  (List.range count).foldl
    (fun s i => DescRecord.sendParameterValue (recs.getD i {})
      ((s.writeByte 49).writeInt (i : Int))) s

/-- `Statement::executePrepared`: sends `'Q'` + prepared id + the parameter
blocks + the `'0'` sentinel — with no check of `m_state` — then dispatches
on the response byte. -/
def executePrepared (st : Statement) (s : Socket) : Bool × Statement × Socket :=
  let s1 := ((s.writeByte 81).writeInt st.m_preparedId)
  let s2 := paramLoop st.m_appParam st.m_parameterCount.toNat s1
  let s3 := s2.writeByte 48
  let p := s3.readByte
  let st1 := { st with
      m_state := StmtState.S_EXECUTED, m_rowId := 0, m_resultSetId := 0,
      m_columnCount := 0, m_updateCount := 0 }
  if p.1 = 69 then
    (false, { st1 with m_state := StmtState.S_CLOSED, m_error := some E_42000 }, p.2)
  else if p.1 = 82 then
    let q := st1.processResultSet p.2
    (true, q.1, q.2)
  else if p.1 = 85 then
    let q := p.2.readInt
    (true, { st1 with
        m_state := StmtState.S_EXECUTED, m_hasResultSet := false,
        m_updateCount := q.1 }, q.2)
  else (true, st1, p.2)

end Statement

/-- A raw ODBC handle as the casts see it: a possibly-null pointer to
memory whose first `int` is the magic tag. -/
structure HandlePtr where
  isNull : Bool
  m_magic : Int
  deriving Repr, DecidableEq

/-- `MAGIC_ENVIRONMENT`. -/
def MAGIC_ENVIRONMENT : Int := 0xABC0

/-- `MAGIC_CONNECTION`. -/
def MAGIC_CONNECTION : Int := 0xABC1

/-- `MAGIC_STATEMENT`. -/
def MAGIC_STATEMENT : Int := 0xABC2

/-- `MAGIC_DESCRIPTOR`. -/
def MAGIC_DESCRIPTOR : Int := 0xABC3

/-- `Environment::cast`: null and wrong-magic pointers are rejected. -/
def Environment.cast (p : HandlePtr) : Option HandlePtr :=
  if p.isNull then none
  else if p.m_magic ≠ MAGIC_ENVIRONMENT then none
  else some p

/-- `Connection::cast`. -/
def Connection.cast (p : HandlePtr) : Option HandlePtr :=
  if p.isNull then none
  else if p.m_magic ≠ MAGIC_CONNECTION then none
  else some p

/-- `Statement::cast`. -/
def Statement.cast (p : HandlePtr) : Option HandlePtr :=
  if p.isNull then none
  else if p.m_magic ≠ MAGIC_STATEMENT then none
  else some p

/-- `Descriptor::cast`, transcribed from odbcDescriptor.cpp lines 9-18:
after the null check, line 13 reads `Descriptor* desc=Descriptor::cast(pointer);`
— a recursive call on the same pointer instead of a C-style pointer cast —
so for a non-null pointer the function recurses until the stack is
exhausted.  The recursion depth is made explicit as `fuel`; `none` models
the crash when it runs out. -/
def Descriptor.castFuel : Nat → HandlePtr → Option HandlePtr
  | 0, _ => none
  | fuel + 1, p => if p.isNull then none else Descriptor.castFuel fuel p

end H2Odbc

namespace H2Odbc

/-- `0 ≤ n < 2^32 → assemble4` of the four big-endian bytes of `n` recovers
the two's-complement reading of `n`. -/
theorem assemble4_int32 (n : Nat) (hn : n < 2 ^ 32) :
    assemble4 (n / 2 ^ 24 % 256) (n / 2 ^ 16 % 256) (n / 2 ^ 8 % 256) (n % 256) =
      toSigned32 n := by
  unfold assemble4
  have h24 : n / 2 ^ 24 % 256 = n / 2 ^ 24 := by
    have : n / 2 ^ 24 < 256 := by
      apply Nat.div_lt_of_lt_mul
      omega
    exact Nat.mod_eq_of_lt this
  have e1 : n / 2 ^ 8 / 2 ^ 8 = n / 2 ^ 16 := by
    rw [Nat.div_div_eq_div_mul]; norm_num
  have e2 : n / 2 ^ 16 / 2 ^ 8 = n / 2 ^ 24 := by
    rw [Nat.div_div_eq_div_mul]; norm_num
  have d1 := Nat.div_add_mod n (2 ^ 8)
  have d2 := Nat.div_add_mod (n / 2 ^ 8) (2 ^ 8)
  have d3 := Nat.div_add_mod (n / 2 ^ 16) (2 ^ 8)
  have m1 := Nat.mod_lt n (y := 2 ^ 8) (by norm_num)
  have m2 := Nat.mod_lt (n / 2 ^ 8) (y := 2 ^ 8) (by norm_num)
  have m3 := Nat.mod_lt (n / 2 ^ 16) (y := 2 ^ 8) (by norm_num)
  rw [e1] at d2
  rw [e2] at d3
  have hsum : n / 2 ^ 24 % 256 % 256 * 2 ^ 24 + n / 2 ^ 16 % 256 % 256 * 2 ^ 16 +
      n / 2 ^ 8 % 256 % 256 * 2 ^ 8 + n % 256 % 256 = n := by
    simp only [Nat.mod_mod_of_dvd _ dvd_rfl]
    norm_num at d1 d2 d3 m1 m2 m3 h24 ⊢
    omega
  rw [hsum]

/-- `toSigned32 (toUnsigned32 x) = x` on the `int` range. -/
theorem toSigned32_toUnsigned32 (x : Int) (h1 : -(2 ^ 31) ≤ x) (h2 : x < 2 ^ 31) :
    toSigned32 (toUnsigned32 x) = x := by
  unfold toSigned32 toUnsigned32
  have hmod : x % 2 ^ 32 = x ∨ x % 2 ^ 32 = x + 2 ^ 32 := by omega
  have hnonneg : 0 ≤ x % 2 ^ 32 := by omega
  rcases hmod with h | h <;> simp only [h] <;> split <;> omega

/-- `readInt` on a stream starting with the 4-byte encoding of an in-range
`int` returns that `int` and consumes exactly 4 bytes. -/
theorem readInt_int32Bytes (x : Int) (rest out : List Nat) (junk : Nat)
    (h1 : -(2 ^ 31) ≤ x) (h2 : x < 2 ^ 31) :
    Socket.readInt ⟨true, int32Bytes x ++ rest, out, junk⟩ =
      (x, ⟨true, rest, out, junk⟩) := by
  have hn : toUnsigned32 x < 2 ^ 32 := by
    unfold toUnsigned32; omega
  have hlen : (int32Bytes x).length = 4 := rfl
  have htake : (int32Bytes x ++ rest).take 4 = int32Bytes x := by
    rw [← hlen, List.take_left]
  have hdrop : (int32Bytes x ++ rest).drop 4 = rest := by
    rw [← hlen, List.drop_left]
  have hge : 4 ≤ (int32Bytes x ++ rest).length := by
    rw [List.length_append, hlen]; omega
  unfold Socket.readInt Socket.read
  norm_num [hge, htake, hdrop, hlen]
  unfold int32Bytes
  norm_num [List.getD]
  have ha := assemble4_int32 (toUnsigned32 x) hn
  norm_num at ha
  rw [ha]
  exact toSigned32_toUnsigned32 x h1 h2

/-- `readString` on a stream starting with the `writeString` encoding of a
NUL-free byte list returns that list and consumes exactly the encoding. -/
theorem readString_encoded (str rest out : List Nat) (junk : Nat)
    (h0 : ∀ b ∈ str, b ≠ 0) (hlen : str.length < 2 ^ 31) :
    Socket.readString ⟨true, int32Bytes (str.length : Int) ++ (str ++ rest), out, junk⟩ =
      (str, ⟨true, rest, out, junk⟩) := by
  have hread := readInt_int32Bytes (str.length : Int) (str ++ rest) out junk
    (by omega) (by omega)
  have h0' : ∀ b ∈ str, (fun b => decide (b ≠ 0)) b = true :=
    fun b hb => decide_eq_true (h0 b hb)
  simp only [Socket.readString]
  rw [if_neg (by simp), hread]
  have h1 : ¬ ((str.length : Int) < 0) := by omega
  have h2 : ((str.length : Nat) : Int).toNat = str.length := by omega
  rw [if_neg h1, h2]
  by_cases h3 : str.length = 0
  · have hnil : str = [] := List.length_eq_zero.mp h3
    subst hnil
    simp
  · rw [if_neg h3]
    unfold Socket.read
    rw [if_neg (by simp)]
    have h4 : str.length ≤ (str ++ rest).length := by
      rw [List.length_append]; omega
    rw [if_pos h4, List.take_left, List.drop_left]
    simp only [Nat.sub_self, List.replicate, List.append_nil, List.take_length,
      Prod.mk.injEq]
    exact ⟨List.takeWhile_eq_self_iff.mpr h0', trivial⟩

/-- **C1.** Round-trip codec law: for every 32-bit `int` value, `readInt`
applied to the byte stream produced by `writeInt` yields the value again
(the masking in `readInt` makes this hold on the full signed range), and
for every string (a NUL-free byte sequence of C-string length, including
the empty one), `readString` applied to the output of `writeString` — an
int32 byte-length prefix followed by exactly that many raw bytes — yields
the string again. -/
theorem c1_codec_roundtrip :
    (∀ (x : Int) (rest out : List Nat) (junk : Nat),
        -(2 ^ 31) ≤ x → x < 2 ^ 31 →
        Socket.readInt ⟨true, ((Socket.mk true [] [] 0).writeInt x).output ++ rest, out, junk⟩ =
          (x, ⟨true, rest, out, junk⟩)) ∧
    (∀ (str rest out : List Nat) (junk : Nat),
        (∀ b ∈ str, b ≠ 0) → str.length < 2 ^ 31 →
        Socket.readString
            ⟨true, ((Socket.mk true [] [] 0).writeString str).output ++ rest, out, junk⟩ =
          (str, ⟨true, rest, out, junk⟩)) := by
  constructor
  · intro x rest out junk h1 h2
    have : ((Socket.mk true [] [] 0).writeInt x).output = int32Bytes x := rfl
    rw [this]
    exact readInt_int32Bytes x rest out junk h1 h2
  · intro str rest out junk h0 hlen
    have hself : str.takeWhile (fun b => decide (b ≠ 0)) = str :=
      List.takeWhile_eq_self_iff.mpr fun b hb => decide_eq_true (h0 b hb)
    have hout : ((Socket.mk true [] [] 0).writeString str).output =
        int32Bytes (str.length : Int) ++ str := by
      simp only [Socket.writeString, Socket.writeInt, Socket.write, hself]
      rfl
    rw [hout, List.append_assoc]
    exact readString_encoded str rest out junk h0 hlen

/-- **C4** (evidence of the code bug).  On a freshly created connection:
with an established byte stream and the server replying `'O'`, `open`
takes the `isClosed()` branch (the test is inverted), records the
08001 "unable to establish" diagnostic, sends nothing — not even the
`'C'` request — and leaves the state at `C_INIT`, never `C_OPEN`; with no
byte stream at all, `open` runs the handshake against the dead socket,
reads `-1 ≠ 'O'`, and records the 08004 "rejected" diagnostic instead of
08001, again leaving the state at `C_INIT`.  Both outcomes contradict the
claim's state transitions and swap its two diagnostics. -/
theorem c4_open_handshake_bug :
    ((Connection.open_ ⟨ConnState.C_INIT, true, ⟨false, [], [], 0⟩, none⟩
        ⟨true, [79], [], 0⟩ [100] [117] [112]).m_error = some E_08001 ∧
     (Connection.open_ ⟨ConnState.C_INIT, true, ⟨false, [], [], 0⟩, none⟩
        ⟨true, [79], [], 0⟩ [100] [117] [112]).m_socket.output = [] ∧
     (Connection.open_ ⟨ConnState.C_INIT, true, ⟨false, [], [], 0⟩, none⟩
        ⟨true, [79], [], 0⟩ [100] [117] [112]).m_state = ConnState.C_INIT) ∧
    ((Connection.open_ ⟨ConnState.C_INIT, true, ⟨false, [], [], 0⟩, none⟩
        ⟨false, [], [], 0⟩ [100] [117] [112]).m_error = some E_08004 ∧
     (Connection.open_ ⟨ConnState.C_INIT, true, ⟨false, [], [], 0⟩, none⟩
        ⟨false, [], [], 0⟩ [100] [117] [112]).m_state = ConnState.C_INIT) := by
  refine ⟨⟨?_, ?_, ?_⟩, ?_, ?_⟩ <;> decide

/-- **C9.** Autocommit idempotence: `setAutoCommit` with the current value
returns the connection unchanged (in particular no bytes are written to
the transport), and with a different value writes exactly the two-byte
toggle `'A'` followed by `'1'`/`'0'` and updates the stored flag, leaving
state and input untouched. -/
theorem c9_autocommit_idempotence :
    (∀ (c : Connection) (b : Bool), b = c.m_autoCommit → c.setAutoCommit b = c) ∧
    (∀ (c : Connection) (b : Bool), b ≠ c.m_autoCommit → c.m_socket.isOpen = true →
      (c.setAutoCommit b).m_socket.output =
        c.m_socket.output ++ [65, if b then 49 else 48] ∧
      (c.setAutoCommit b).m_autoCommit = b ∧
      (c.setAutoCommit b).m_socket.input = c.m_socket.input ∧
      (c.setAutoCommit b).m_state = c.m_state) := by
  constructor
  · intro c b hb
    simp [Connection.setAutoCommit, hb]
  · intro c b hb hopen
    cases b <;>
      simp [Connection.setAutoCommit, hb, Socket.writeByte, Socket.write, hopen]

/-- Witness for C9 at a concrete connection. -/
theorem c9_autocommit_idempotence_witness :
    (Connection.setAutoCommit ⟨ConnState.C_OPEN, true, ⟨true, [], [], 0⟩, none⟩ true =
      ⟨ConnState.C_OPEN, true, ⟨true, [], [], 0⟩, none⟩) ∧
    (Connection.setAutoCommit ⟨ConnState.C_OPEN, true, ⟨true, [], [], 0⟩, none⟩
        false).m_socket.output = [65, 48] :=
  ⟨c9_autocommit_idempotence.1 _ true rfl,
   (c9_autocommit_idempotence.2 ⟨ConnState.C_OPEN, true, ⟨true, [], [], 0⟩, none⟩
      false (by decide) rfl).1⟩

end H2Odbc

namespace H2Odbc

/-- Reads never touch the write trace. -/
theorem Socket.read_output (s : Socket) (n : Nat) : ((s.read n).2).output = s.output := by
  unfold Socket.read
  split
  · rfl
  · split <;> rfl

/-- `readByte` never touches the write trace. -/
theorem Socket.readByte_output (s : Socket) : (s.readByte).2.output = s.output := by
  simp only [Socket.readByte]
  split
  · rfl
  · exact Socket.read_output s 1

/-- `readInt` never touches the write trace. -/
theorem Socket.readInt_output (s : Socket) : (s.readInt).2.output = s.output := by
  simp only [Socket.readInt]
  split
  · rfl
  · exact Socket.read_output s 4

/-- `readString` never touches the write trace. -/
theorem Socket.readString_output (s : Socket) : (s.readString).2.output = s.output := by
  simp only [Socket.readString]
  split
  · rfl
  · split
    · exact Socket.readInt_output s
    · split
      · exact Socket.readInt_output s
      · rw [Socket.read_output, Socket.readInt_output]

/-- `readMeta` never touches the write trace. -/
theorem DescRecord.readMeta_output (rec : DescRecord) (s : Socket) :
    (rec.readMeta s).2.output = s.output := by
  simp only [DescRecord.readMeta]
  rw [Socket.readInt_output, Socket.readInt_output, Socket.readInt_output,
    Socket.readString_output, Socket.readString_output, Socket.readInt_output]

/-- The metadata loop never touches the write trace. -/
theorem readColumns_output (n : Nat) (s : Socket) :
    (readColumns n s).2.2.output = s.output := by
  induction n generalizing s with
  | zero => rfl
  | succ n ih =>
    simp only [readColumns]
    rw [ih, DescRecord.readMeta_output]

/-- The metadata loop produces one implementation and one application
record per column. -/
theorem readColumns_length (n : Nat) (s : Socket) :
    (readColumns n s).1.length = n ∧ (readColumns n s).2.1.length = n := by
  induction n generalizing s with
  | zero => exact ⟨rfl, rfl⟩
  | succ n ih =>
    simp only [readColumns, List.length_cons]
    exact ⟨by rw [(ih _).1], by rw [(ih _).2]⟩

/-- `processResultSet` never touches the write trace. -/
theorem Statement.processResultSet_output (st : Statement) (s : Socket) :
    (st.processResultSet s).2.output = s.output := by
  simp only [Statement.processResultSet]
  rw [readColumns_output, Socket.readInt_output, Socket.readInt_output]

/-- `executePrepared` always writes the full request — `'Q'`, prepared id,
parameter blocks, `'0'` sentinel — whatever the statement state; the
response phase only reads. -/
theorem executePrepared_output (st : Statement) (s : Socket) :
    (st.executePrepared s).2.2.output =
      ((Statement.paramLoop st.m_appParam st.m_parameterCount.toNat
          ((s.writeByte 81).writeInt st.m_preparedId)).writeByte 48).output := by
  simp only [Statement.executePrepared]
  split
  · exact Socket.readByte_output _
  · split
    · rw [Statement.processResultSet_output, Socket.readByte_output]
    · split
      · rw [Socket.readInt_output, Socket.readByte_output]
      · exact Socket.readByte_output _

end H2Odbc

namespace H2Odbc

/-- **C7.** Null propagation: when the implementation record's was-null
flag is set and an indicator is bound, `copyData` writes exactly
`SQL_NULL_DATA` to the indicator and performs no store of any kind into
the bound data buffer, whatever the declared target type. -/
theorem c7_null_propagation (rec ar : DescRecord)
    (hnull : rec.m_wasNull = true) (hind : ar.m_statusBound = true) :
    rec.copyData ar =
      { bufBytes := [], intStore := none, smallStore := none,
        indicator := some SQL_NULL_DATA } := by
  simp [DescRecord.copyData, DescRecord.setNull, hnull, hind]

/-- Witness for C7: a null integer column copied into a record with a
bound indicator, declared target type `SQL_C_CHAR`. -/
theorem c7_null_propagation_witness :
    DescRecord.copyData { m_sqlDataType := 4, m_wasNull := true }
        { m_cDataType := 1, m_statusBound := true, m_pointerBound := true } =
      { indicator := some SQL_NULL_DATA } :=
  c7_null_propagation _ _ rfl rfl

/-- **C2** (evidence of the code bug).  Fetching the 5-byte text value
`"hello"` into a `SQL_C_CHAR` target of declared capacity 4: the copy
writes 4 payload bytes at offsets 0..3 *and a NUL terminator at offset 4*
— one byte beyond the declared capacity — and stores the truncated length
4, not the untruncated source length 5, in the indicator. -/
theorem c2_truncation_bug :
    DescRecord.copyData
        { m_sqlDataType := 12, m_dataString := [104, 101, 108, 108, 111] }
        { m_cDataType := 1, m_pointerBound := true, m_statusBound := true,
          m_targetBufferLength := 4 } =
      { bufBytes := [(0, 104), (1, 101), (2, 108), (3, 108), (4, 0)],
        indicator := some 4 } ∧
    (4, 0) ∈ (DescRecord.copyData
        { m_sqlDataType := 12, m_dataString := [104, 101, 108, 108, 111] }
        { m_cDataType := 1, m_pointerBound := true, m_statusBound := true,
          m_targetBufferLength := 4 }).bufBytes ∧
    (DescRecord.copyData
        { m_sqlDataType := 12, m_dataString := [104, 101, 108, 108, 111] }
        { m_cDataType := 1, m_pointerBound := true, m_statusBound := true,
          m_targetBufferLength := 4 }).indicator ≠ some 5 := by
  refine ⟨?_, ?_, ?_⟩ <;> decide

/-- **C3** (counterexample).  A prepare exchange whose server reply is
`'O'` with prepared id 1 and parameter count 2 leaves both parameter
descriptors with 0 records, not 2: the records are only created later by
`addParameter` as the caller binds. -/
theorem c3_counterexample :
    (Statement.prepare (Statement.fresh StmtState.S_PREPARED) [65]
        ⟨true, [79, 0, 0, 0, 1, 0, 0, 0, 2], [], 0⟩).2.1.m_parameterCount = 2 ∧
    (Statement.prepare (Statement.fresh StmtState.S_PREPARED) [65]
        ⟨true, [79, 0, 0, 0, 1, 0, 0, 0, 2], [], 0⟩).2.1.m_impParam.length = 0 ∧
    (Statement.prepare (Statement.fresh StmtState.S_PREPARED) [65]
        ⟨true, [79, 0, 0, 0, 1, 0, 0, 0, 2], [], 0⟩).2.1.m_appParam.length = 0 := by
  refine ⟨?_, ?_, ?_⟩ <;> decide

/-- **C3** (amended).  `processResultSet` leaves the implementation and
application row descriptors with exactly `columnCount` records each (equal
counts); a prepare answered `'O'` records the reported parameter count but
*clears* both parameter descriptors to zero records (again equal), and
`addParameter` grows both in lockstep. -/
theorem c3_descriptor_record_counts :
    (∀ (st : Statement) (s : Socket),
        (st.processResultSet s).1.m_impRow.length =
          (st.processResultSet s).1.m_columnCount.toNat ∧
        (st.processResultSet s).1.m_appRow.length =
          (st.processResultSet s).1.m_columnCount.toNat) ∧
    (∀ (st : Statement) (sql : List Nat) (s : Socket),
        (((s.writeByte 80).writeString sql).readByte).1 = 79 →
        (st.prepare sql s).2.1.m_impParam = [] ∧
        (st.prepare sql s).2.1.m_appParam = [] ∧
        (st.prepare sql s).2.1.m_parameterCount =
          (((((s.writeByte 80).writeString sql).readByte).2.readInt).2.readInt).1) ∧
    (∀ st : Statement,
        st.addParameter.m_impParam.length = st.m_impParam.length + 1 ∧
        st.addParameter.m_appParam.length = st.m_appParam.length + 1) := by
  refine ⟨?_, ?_, ?_⟩
  · intro st s
    simp only [Statement.processResultSet]
    exact ⟨(readColumns_length _ _).1, (readColumns_length _ _).2⟩
  · intro st sql s hreply
    have h69 : ¬((((s.writeByte 80).writeString sql).readByte).1 = 69) := by
      rw [hreply]; decide
    simp [Statement.prepare, hreply, h69]
  · intro st
    simp [Statement.addParameter]

/-- Witness for C3's amended statement at concrete inputs. -/
theorem c3_descriptor_record_counts_witness :
    ((Statement.fresh StmtState.S_PREPARED).processResultSet
        ⟨true, [0, 0, 0, 7, 0, 0, 0, 0], [], 0⟩).1.m_impRow.length =
      ((Statement.fresh StmtState.S_PREPARED).processResultSet
        ⟨true, [0, 0, 0, 7, 0, 0, 0, 0], [], 0⟩).1.m_columnCount.toNat ∧
    (Statement.prepare (Statement.fresh StmtState.S_PREPARED) [65]
        ⟨true, [79, 0, 0, 0, 1, 0, 0, 0, 3], [], 0⟩).2.1.m_impParam = [] ∧
    (Statement.fresh StmtState.S_PREPARED).addParameter.m_impParam.length =
      (Statement.fresh StmtState.S_PREPARED).m_impParam.length + 1 :=
  ⟨(c3_descriptor_record_counts.1 _ _).1,
   (c3_descriptor_record_counts.2.1 (Statement.fresh StmtState.S_PREPARED) [65]
      ⟨true, [79, 0, 0, 0, 1, 0, 0, 0, 3], [], 0⟩ (by decide)).1,
   (c3_descriptor_record_counts.2.2 _).1⟩

/-- **C5** (counterexample).  A `readInt` whose stream dies after
delivering only 2 of 4 bytes does mark the session dead, but the decode
itself does not fail: it returns `16910601`, assembled from the two bytes
actually read (`1`, `2`) and the junk content (`9`) of the unwritten
buffer tail — not the `-1` failure value every dead-socket decode
returns. -/
theorem c5_counterexample :
    Socket.readInt ⟨true, [1, 2], [], 9⟩ = (16910601, ⟨false, [], [], 9⟩) ∧
    (Socket.readInt ⟨true, [1, 2], [], 9⟩).1 ≠ -1 := by
  constructor <;> decide

/-- **C5** (amended).  `read` loops until the requested count is fully
delivered when the stream suffices; a short stream delivers what remains
and transitions the session to the dead state; and on a dead session every
*subsequent* decode fails (`readByte`/`readInt` return `-1`, `readString`
returns the empty string) — the in-flight decode, however, returns a value
assembled from the partially read bytes (see the counterexample). -/
theorem c5_read_dead_state :
    (∀ (s : Socket) (len : Nat), s.isOpen = true → len ≤ s.input.length →
        s.read len = (s.input.take len, { s with input := s.input.drop len })) ∧
    (∀ (s : Socket) (len : Nat), s.isOpen = true → s.input.length < len →
        (s.read len).1 = s.input ∧ (s.read len).2.isOpen = false ∧
        (s.read len).2.input = []) ∧
    (∀ s : Socket, s.isOpen = false →
        s.readByte = (-1, s) ∧ s.readInt = (-1, s) ∧ s.readString = ([], s)) := by
  refine ⟨?_, ?_, ?_⟩
  · intro s len ho hle
    simp [Socket.read, ho, hle]
  · intro s len ho hlt
    have hnle : ¬(len ≤ s.input.length) := by omega
    simp [Socket.read, ho, hnle]
  · intro s hc
    simp [Socket.readByte, Socket.readInt, Socket.readString, hc]

/-- Witness for C5's amended statement at concrete sockets. -/
theorem c5_read_dead_state_witness :
    Socket.read ⟨true, [5, 6, 7], [], 0⟩ 2 = ([5, 6], ⟨true, [7], [], 0⟩) ∧
    (Socket.read ⟨true, [5], [], 0⟩ 4).2.isOpen = false ∧
    Socket.readInt ⟨false, [1, 2, 3, 4], [], 0⟩ = (-1, ⟨false, [1, 2, 3, 4], [], 0⟩) :=
  ⟨c5_read_dead_state.1 ⟨true, [5, 6, 7], [], 0⟩ 2 rfl (by decide),
   (c5_read_dead_state.2.1 ⟨true, [5], [], 0⟩ 4 rfl (by decide)).2.1,
   (c5_read_dead_state.2.2 ⟨false, [1, 2, 3, 4], [], 0⟩ rfl).2.1⟩

end H2Odbc

namespace H2Odbc

/-- **C6** (counterexample).  After a prepare answered `'E'` (statement
CLOSED, 42000 diagnostic), a subsequent `executePrepared` does not fail
fast: it writes the full `'Q'` + prepared-id + `'0'` exchange to the
transport session. -/
theorem c6_counterexample :
    (Statement.prepare (Statement.fresh StmtState.S_PREPARED) [65]
        ⟨true, [69], [], 0⟩).2.1.m_state = StmtState.S_CLOSED ∧
    (Statement.prepare (Statement.fresh StmtState.S_PREPARED) [65]
        ⟨true, [69], [], 0⟩).2.1.m_error = some E_42000 ∧
    ((Statement.prepare (Statement.fresh StmtState.S_PREPARED) [65]
        ⟨true, [69], [], 0⟩).2.1.executePrepared
          ⟨true, [], [], 0⟩).2.2.output = [81, 0, 0, 0, 0, 48] := by
  refine ⟨?_, ?_, ?_⟩ <;> decide

/-- **C6** (amended).  A prepare answered `'E'` returns failure, closes
the statement, zeroes the parameter count and records the 42000
syntax-error diagnostic; but a subsequent `executePrepared` on the closed
statement is not blocked — it writes the complete `'Q'` + prepared-id +
`'0'` request to the transport session regardless of the CLOSED state. -/
theorem c6_rejected_prepare :
    (∀ (st : Statement) (sql : List Nat) (s : Socket),
        (((s.writeByte 80).writeString sql).readByte).1 = 69 →
        (st.prepare sql s).1 = false ∧
        (st.prepare sql s).2.1.m_state = StmtState.S_CLOSED ∧
        (st.prepare sql s).2.1.m_error = some E_42000 ∧
        (st.prepare sql s).2.1.m_parameterCount = 0) ∧
    (∀ (st : Statement) (s : Socket),
        st.m_state = StmtState.S_CLOSED → st.m_parameterCount = 0 →
        s.isOpen = true →
        (st.executePrepared s).2.2.output =
          s.output ++ 81 :: (int32Bytes st.m_preparedId ++ [48])) := by
  constructor
  · intro st sql s hreply
    simp [Statement.prepare, hreply]
  · intro st s _ hcount hopen
    rw [executePrepared_output]
    have hz : st.m_parameterCount.toNat = 0 := by
      rw [hcount]; rfl
    rw [hz]
    simp only [Statement.paramLoop, List.range_zero, List.foldl_nil]
    simp [Socket.writeByte, Socket.writeInt, Socket.write, hopen]

/-- Witness for C6's amended statement at concrete inputs. -/
theorem c6_rejected_prepare_witness :
    (Statement.prepare (Statement.fresh StmtState.S_EXECUTED) [66]
        ⟨true, [69, 1], [], 0⟩).2.1.m_state = StmtState.S_CLOSED ∧
    ((Statement.fresh StmtState.S_CLOSED).executePrepared
        ⟨true, [], [7], 0⟩).2.2.output = [7] ++ 81 :: (int32Bytes 0 ++ [48]) :=
  ⟨(c6_rejected_prepare.1 (Statement.fresh StmtState.S_EXECUTED) [66]
      ⟨true, [69, 1], [], 0⟩ (by decide)).2.1,
   c6_rejected_prepare.2 (Statement.fresh StmtState.S_CLOSED)
      ⟨true, [], [7], 0⟩ rfl rfl rfl⟩

/-- **C8** (counterexample).  A bound parameter with the unsupported
declared C type `SQL_C_FLOAT` (7), a bound data pointer and a plain length
indicator: `sendParameterValue` is the identity on the session — nothing
is written for the value — and an `executePrepared` carrying that
parameter still reports success with no diagnostic, while the wire holds a
parameter block `'1'` + ordinal with no value before the `'0'` sentinel.
No error is raised anywhere, contradicting the claim. -/
theorem c8_counterexample :
    DescRecord.sendParameterValue
        { m_cDataType := 7, m_statusBound := true, m_statusValue := 4,
          m_pointerBound := true } ⟨true, [], [], 0⟩ = ⟨true, [], [], 0⟩ ∧
    ({ Statement.fresh StmtState.S_PREPARED with
        m_parameterCount := 1,
        m_appParam := [{ m_cDataType := 7, m_statusBound := true,
                         m_statusValue := 4, m_pointerBound := true }]
      : Statement }.executePrepared ⟨true, [85, 0, 0, 0, 3], [], 0⟩).1 = true ∧
    ({ Statement.fresh StmtState.S_PREPARED with
        m_parameterCount := 1,
        m_appParam := [{ m_cDataType := 7, m_statusBound := true,
                         m_statusValue := 4, m_pointerBound := true }]
      : Statement }.executePrepared
        ⟨true, [85, 0, 0, 0, 3], [], 0⟩).2.1.m_error = none ∧
    ({ Statement.fresh StmtState.S_PREPARED with
        m_parameterCount := 1,
        m_appParam := [{ m_cDataType := 7, m_statusBound := true,
                         m_statusValue := 4, m_pointerBound := true }]
      : Statement }.executePrepared
        ⟨true, [85, 0, 0, 0, 3], [], 0⟩).2.2.output =
      [81, 0, 0, 0, 0, 49, 0, 0, 0, 0, 48] := by
  refine ⟨?_, ?_, ?_, ?_⟩ <;> decide

/-- **C8** (amended).  With a bound indicator equal to `SQL_NULL_DATA`,
`sendParameterValue` writes exactly the 4-byte zero marker and nothing
else, whatever the declared type; for every declared C type other than
`SQL_C_SHORT`, `SQL_C_LONG` and `SQL_C_CHAR` (with a bound, non-null
pointer and a non-null indicator), it is the identity on the session —
no bytes are written, but no error is raised either: the unsupported type
is skipped silently. -/
theorem c8_parameter_send :
    (∀ (rec : DescRecord) (s : Socket),
        rec.m_statusBound = true → rec.m_statusValue = SQL_NULL_DATA →
        rec.sendParameterValue s = s.writeInt 0) ∧
    (∀ (rec : DescRecord) (s : Socket),
        rec.m_cDataType ≠ SQL_C_SHORT → rec.m_cDataType ≠ SQL_C_LONG →
        rec.m_cDataType ≠ SQL_C_CHAR → rec.m_pointerBound = true →
        ¬(rec.m_statusBound = true ∧ rec.m_statusValue = SQL_NULL_DATA) →
        rec.sendParameterValue s = s) := by
  constructor
  · intro rec s hb hv
    simp [DescRecord.sendParameterValue, hb, hv]
  · intro rec s h5 h4 h1 hp hnn
    simp [DescRecord.sendParameterValue, h5, h4, h1, hp, hnn]

/-- Witness for C8's amended statement at concrete records. -/
theorem c8_parameter_send_witness :
    DescRecord.sendParameterValue
        { m_cDataType := 5, m_statusBound := true, m_statusValue := -1,
          m_pointerBound := true, memInt := 42 } ⟨true, [], [], 0⟩ =
      Socket.writeInt ⟨true, [], [], 0⟩ 0 ∧
    DescRecord.sendParameterValue
        { m_cDataType := 8, m_statusBound := true, m_statusValue := 4,
          m_pointerBound := true } ⟨true, [], [], 0⟩ = ⟨true, [], [], 0⟩ :=
  ⟨c8_parameter_send.1 _ _ rfl rfl,
   c8_parameter_send.2
      { m_cDataType := 8, m_statusBound := true, m_statusValue := 4,
        m_pointerBound := true } ⟨true, [], [], 0⟩
      (by decide) (by decide) (by decide) rfl (by decide)⟩

/-- **C10** (evidence of the code bug).  `Descriptor::cast` never returns
a valid handle for any non-null pointer — whatever the magic tag and
however much stack is available, the self-recursive call only terminates
by exhausting the fuel — while the environment, connection and statement
casts do exactly what the claim states: a handle is accepted iff the
pointer is non-null and carries that type's magic tag (so a destructed
handle, whose tag was zeroed, is rejected). -/
theorem c10_handle_casts :
    (∀ (fuel : Nat) (p : HandlePtr), p.isNull = false →
        Descriptor.castFuel fuel p = none) ∧
    (∀ p : HandlePtr,
        Statement.cast p = some p ↔ p.isNull = false ∧ p.m_magic = MAGIC_STATEMENT) ∧
    (∀ p : HandlePtr,
        Connection.cast p = some p ↔ p.isNull = false ∧ p.m_magic = MAGIC_CONNECTION) ∧
    (∀ p : HandlePtr,
        Environment.cast p = some p ↔ p.isNull = false ∧ p.m_magic = MAGIC_ENVIRONMENT) := by
  refine ⟨?_, ?_, ?_, ?_⟩
  · intro fuel
    induction fuel with
    | zero => intro p _; rfl
    | succ n ih =>
      intro p hp
      simp only [Descriptor.castFuel, hp]
      exact ih p hp
  · intro p
    unfold Statement.cast
    split_ifs with h1 h2 <;> simp_all
  · intro p
    unfold Connection.cast
    split_ifs with h1 h2 <;> simp_all
  · intro p
    unfold Environment.cast
    split_ifs with h1 h2 <;> simp_all

/-- Witness for C10 at concrete handles: a well-tagged non-null descriptor
handle is still never accepted, while a well-tagged statement handle is. -/
theorem c10_handle_casts_witness :
    Descriptor.castFuel 1000 ⟨false, MAGIC_DESCRIPTOR⟩ = none ∧
    Statement.cast ⟨false, MAGIC_STATEMENT⟩ = some ⟨false, MAGIC_STATEMENT⟩ :=
  ⟨c10_handle_casts.1 1000 ⟨false, MAGIC_DESCRIPTOR⟩ rfl,
   (c10_handle_casts.2.1 ⟨false, MAGIC_STATEMENT⟩).mpr ⟨rfl, rfl⟩⟩

end H2Odbc

namespace H2Odbc

/-- Witness for C1: the value `-5`, the string `"hi"` and the empty
string round-trip through the codec at concrete streams. -/
theorem c1_codec_roundtrip_witness :
    Socket.readInt ⟨true, ((Socket.mk true [] [] 0).writeInt (-5)).output ++ [9], [], 3⟩ =
      (-5, ⟨true, [9], [], 3⟩) ∧
    Socket.readString
        ⟨true, ((Socket.mk true [] [] 0).writeString [104, 105]).output ++ [9], [], 3⟩ =
      ([104, 105], ⟨true, [9], [], 3⟩) ∧
    Socket.readString
        ⟨true, ((Socket.mk true [] [] 0).writeString []).output ++ [9], [], 3⟩ =
      ([], ⟨true, [9], [], 3⟩) :=
  ⟨c1_codec_roundtrip.1 (-5) [9] [] 3 (by decide) (by decide),
   c1_codec_roundtrip.2 [104, 105] [9] [] 3 (by decide) (by decide),
   c1_codec_roundtrip.2 [] [9] [] 3 (by decide) (by decide)⟩

end H2Odbc
